import Mathlib

/-!
Verification of the query-generation and response-recovery pipeline of the
local AI log-analyst service (src/agent/app.py) against its specification.

The Python service is shallowly embedded: Python values are modelled by the
inductive type `PyVal`, Python dictionaries by association lists with string
keys, raised exceptions by an `Except PyErr` result, and the external HTTP
collaborators (the Ollama generation endpoint and the Elasticsearch store)
are parameters supplying the texts and responses they would return.
-/

/-- Model of a Python value as used by this service (JSON-shaped data).
Floats do not occur in any behaviour verified here and are omitted. -/
inductive PyVal where
  | none
  | bool (b : Bool)
  | int (n : Int)
  | str (s : String)
  | list (xs : List PyVal)
  | dict (kvs : List (String × PyVal))

/-- Errors escaping a handler: `http` models a raised `fastapi.HTTPException`
with its status code and `detail` payload; `uncaught` models any other Python
exception propagating out (surfaced by the framework as a generic 500). -/
inductive PyErr where
  | http (status : Nat) (detail : PyVal)
  | uncaught (msg : String)

/-- Python whitespace as used by `str.strip` and the regex whitespace class
(ASCII range, which is all this service ever feeds them). -/
def isPySpace (c : Char) : Bool :=
  c = ' ' || c = '\t' || c = '\n' || c = '\r' || c = '\x0b' || c = '\x0c'

/-- Python `str.strip()` on a character list: drop whitespace at both ends. -/
def pyStrip (cs : List Char) : List Char :=
  (cs.dropWhile isPySpace).rdropWhile isPySpace

/-- Python `str.strip()` on a `String`. -/
def pyStripStr (s : String) : String :=
  String.mk (pyStrip s.data)

/-- Python `str.lower()` (ASCII lowering, which is all this service feeds
it): lower every character. -/
def pyLower (s : String) : String :=
  String.mk (s.data.map Char.toLower)

theorem dropWhile_left_stable_of_stable {p : Char → Bool} {l l' : List Char}
    (hl : l.dropWhile p = l) (hp : l' <+: l) : l'.dropWhile p = l' := by
  cases l' with
  | nil => rfl
  | cons a t =>
    cases l with
    | nil => simp at hp
    | cons b s =>
      rw [List.cons_prefix_cons] at hp
      obtain ⟨rfl, -⟩ := hp
      have hpa : ¬ p a = true := by
        intro hpa
        rw [List.dropWhile_cons_of_pos hpa] at hl
        have h2 := List.IsSuffix.length_le (List.dropWhile_suffix (l := s) p)
        have h3 := congrArg List.length hl
        simp at h3
        omega
      simp [List.dropWhile_cons, hpa]

theorem pyStrip_idem (cs : List Char) : pyStrip (pyStrip cs) = pyStrip cs := by
  unfold pyStrip
  have h1 : ((cs.dropWhile isPySpace).rdropWhile isPySpace).dropWhile isPySpace
      = (cs.dropWhile isPySpace).rdropWhile isPySpace :=
    dropWhile_left_stable_of_stable (List.dropWhile_idempotent isPySpace cs)
      (List.rdropWhile_prefix _ _)
  rw [h1, List.rdropWhile_idempotent]

theorem pyStripStr_idem (s : String) : pyStripStr (pyStripStr s) = pyStripStr s := by
  unfold pyStripStr
  simp [pyStrip_idem]

/-- Embeds the regex test `re.match(r"^\s*from\s+\S+", s, re.IGNORECASE)` from
`_normalize_esql` (src/agent/app.py line 378): optional leading whitespace,
the word `from` in any letter case, at least one whitespace character, then
at least one non-whitespace character. -/
def startswith_from (s : String) : Bool :=
  match s.data.dropWhile isPySpace with
  | f :: r :: o :: m :: rest =>
    f.toLower = 'f' && r.toLower = 'r' && o.toLower = 'o' && m.toLower = 'm' &&
    !(rest.takeWhile isPySpace).isEmpty && !(rest.dropWhile isPySpace).isEmpty
  | _ => false

/-- Embeds `_normalize_esql` (src/agent/app.py lines 366-385), parameterised
by the configured index pattern `ES_INDEX` (a module global in the source):
strip the input; if it already matches the pattern `from` + whitespace +
non-space case-insensitively at the very start, return it as-is, otherwise
prepend the source-selection stage for the configured index. -/
def _normalize_esql (ES_INDEX : String) (esql : String) : String :=
  let s := pyStripStr esql
  if startswith_from s then s
  else "FROM " ++ ES_INDEX ++ " | " ++ s

/-- Claim C1 (counterexample): a pipeline that already begins with a FROM
stage naming a DIFFERENT index than the configured `springboot-logs-*` is
returned untouched by `_normalize_esql`, whereas the claim requires the
configured source-selection stage to be prepended to it. -/
theorem c1_counterexample :
    _normalize_esql "springboot-logs-*" "FROM other-* | STATS c = COUNT(*) BY level"
      = "FROM other-* | STATS c = COUNT(*) BY level"
    ∧ _normalize_esql "springboot-logs-*" "FROM other-* | STATS c = COUNT(*) BY level"
      ≠ "FROM springboot-logs-* | FROM other-* | STATS c = COUNT(*) BY level" := by
  refine ⟨by decide, by decide⟩

/-- Claim C1 (amended): after trimming, if the pipeline already begins
(case-insensitively) with a source-selection keyword `from` followed by
whitespace and a non-space token — naming ANY index, not necessarily the
configured one — `_normalize_esql` returns the trimmed string unchanged, and
is idempotent on such strings; otherwise it prepends exactly the stage
`FROM <configured index> | ` to the trimmed string and alters nothing else. -/
theorem c1_amended (ES_INDEX esql : String) :
    (startswith_from (pyStripStr esql) = true →
      _normalize_esql ES_INDEX esql = pyStripStr esql
      ∧ _normalize_esql ES_INDEX (_normalize_esql ES_INDEX esql)
          = _normalize_esql ES_INDEX esql)
    ∧ (startswith_from (pyStripStr esql) = false →
      _normalize_esql ES_INDEX esql = "FROM " ++ ES_INDEX ++ " | " ++ pyStripStr esql) := by
  constructor
  · intro h
    have h1 : _normalize_esql ES_INDEX esql = pyStripStr esql := by
      simp [_normalize_esql, h]
    refine ⟨h1, ?_⟩
    rw [h1]
    have h2 : pyStripStr (pyStripStr esql) = pyStripStr esql := pyStripStr_idem esql
    simp [_normalize_esql, h2, h]
  · intro h
    simp [_normalize_esql, h]

/-- Python dictionary lookup `d.get(k)` on the association-list model
(keys are unique in every dictionary this service builds). -/
def pyGet (kvs : List (String × PyVal)) (k : String) : Option PyVal :=
  (kvs.find? (fun p => p.1 == k)).map (fun p => p.2)

/-- Python in-place assignment `d[k] = v`: replace the value at an existing
key, else append the new key at the end (insertion order semantics). -/
def pySet (kvs : List (String × PyVal)) (k : String) (v : PyVal) : List (String × PyVal) :=
  if kvs.any (fun p => p.1 == k) then
    kvs.map (fun p => if p.1 == k then (k, v) else p)
  else kvs ++ [(k, v)]

/-- Python truthiness of a value, as used by `x or y` and `if x:`. -/
def pyTruthy : PyVal → Bool
  | .none => false
  | .bool b => b
  | .int n => n != 0
  | .str s => !s.isEmpty
  | .list xs => !xs.isEmpty
  | .dict kvs => !kvs.isEmpty

def digitsToInt (ds : List Char) : Int :=
  ds.foldl (fun a c => a * 10 + ((c.toNat - 48 : Nat) : Int)) 0

/-- Python `int(s)` on a string: optional surrounding whitespace, optional
sign, then one or more ASCII digits; anything else raises `ValueError`
(modelled as `none`). Digit-group underscores are not modelled; no input
considered here contains them. -/
def parseIntStr (s : String) : Option Int :=
  let cs := pyStrip s.data
  let signed : Int × List Char :=
    match cs with
    | '-' :: t => (-1, t)
    | '+' :: t => (1, t)
    | t => (1, t)
  if !signed.2.isEmpty && signed.2.all Char.isDigit then
    some (signed.1 * digitsToInt signed.2)
  else Option.none

/-- Python `int(v)` on a service value: ints pass through, bools coerce to
0/1, numeric strings are parsed, everything else raises (modelled `none`). -/
def pyInt : PyVal → Option Int
  | .int n => some n
  | .bool b => some (if b then 1 else 0)
  | .str s => parseIntStr s
  | _ => Option.none

/-- Python `len(v)`: defined for strings, lists and dicts, raises `TypeError`
otherwise (modelled `none`). -/
def pyLen : PyVal → Option Int
  | .str s => some (s.length : Int)
  | .list xs => some (xs.length : Int)
  | .dict kvs => some (kvs.length : Int)
  | _ => Option.none

/-- Python `v.get(k, d)` on an arbitrary value: a dictionary answers the
lookup with default `d`; any other value raises `AttributeError`. -/
def pyGetD (v : PyVal) (k : String) (d : PyVal) : Except PyErr PyVal :=
  match v with
  | .dict kvs => .ok ((pyGet kvs k).getD d)
  | _ => .error (.uncaught "AttributeError: get")

/-- Outcome of one HTTP call to the Elasticsearch store, as observed by the
service: either a transport-level failure (`requests.RequestException`), or a
response with its status code, decoded JSON body (`none` when the body is
not valid JSON, making `resp.json()` raise) and raw text. -/
inductive StoreOutcome where
  | transport (msg : String)
  | resp (status : Nat) (jsonBody : Option PyVal) (text : String)

/-- Embeds the request/response part of `run_es_dsl` (src/agent/app.py lines
337-363): given the store outcome for the (already size-capped) body `dsl`,
map transport failures to a 502 `HTTPException`, statuses >= 400 to a 400
`HTTPException` carrying the store error body (or raw text), and on success
extract `(total, hits)` from the decoded response. -/
def run_es_dsl_send (out : StoreOutcome) (dsl : List (String × PyVal)) (url : String) :
    Except PyErr (PyVal × PyVal) :=
  match out with
  | .transport m =>
    .error (.http 502 (.dict [("message", .str "Elasticsearch DSL transport error"),
      ("error", .str m), ("query", .dict dsl), ("url", .str url)]))
  | .resp status body text =>
    if 400 ≤ status then
      .error (.http 400 (.dict [("message", .str "Elasticsearch DSL error"),
        ("es_response", body.getD (.dict [("raw", .str text)])),
        ("query", .dict dsl), ("url", .str url)]))
    else
      match body with
      | Option.none => .error (.uncaught "requests JSONDecodeError")
      | some data => do
        let hits1 ← pyGetD data "hits" (.dict [])
        let total1 ← pyGetD hits1 "total" (.dict [])
        -- the default argument of the final .get is evaluated eagerly:
        -- len(data.get("hits", {}).get("hits", []))
        let hitsArr ← pyGetD hits1 "hits" (.list [])
        let defTotal ← match pyLen hitsArr with
          | some n => Except.ok (PyVal.int n)
          | Option.none => Except.error (PyErr.uncaught "TypeError: len")
        let total ← pyGetD total1 "value" defTotal
        .ok (total, hitsArr)

/-- Embeds `run_es_dsl` (src/agent/app.py lines 328-363): first the size-cap
step `if "size" not in dsl or int(dsl.get("size", 0)) > size_cap:
dsl["size"] = size_cap`, then the store request on the effective body. The
store is a parameter mapping the sent body to its outcome; the effective
(possibly mutated) body is returned alongside the results because the
caller observes the in-place mutation. -/
def run_es_dsl (store : List (String × PyVal) → StoreOutcome) (dsl : List (String × PyVal))
    (size_cap : Int) (url : String) :
    Except PyErr (PyVal × PyVal × List (String × PyVal)) :=
  match pyGet dsl "size" with
  | Option.none =>
    let d := pySet dsl "size" (.int size_cap)
    (run_es_dsl_send (store d) d url).map (fun r => (r.1, r.2, d))
  | some v =>
    match pyInt v with
    | Option.none => .error (.uncaught "ValueError: int conversion of size failed")
    | some n =>
      if size_cap < n then
        let d := pySet dsl "size" (.int size_cap)
        (run_es_dsl_send (store d) d url).map (fun r => (r.1, r.2, d))
      else
        (run_es_dsl_send (store dsl) dsl url).map (fun r => (r.1, r.2, dsl))

/-- Embeds `run_es_esql` (src/agent/app.py lines 390-422): a 404 from the
pipeline-query endpoint raises a 400 `HTTPException` with a fixed guidance
string; any other status >= 400 raises a 400 `HTTPException` carrying the
store error body; transport failures raise 502; on success the row count is
the length of `data.get("values") or []` and the sample is the whole body. -/
def run_es_esql (out : StoreOutcome) (esql : String) : Except PyErr (PyVal × PyVal) :=
  match out with
  | .transport m =>
    .error (.http 502 (.dict [("message", .str "Elasticsearch ESQL transport error"),
      ("error", .str m), ("query", .str esql)]))
  | .resp status body text =>
    if status = 404 then
      .error (.http 400 (.str "ESQL endpoint \x27/_query\x27 not found on this cluster. Switch to DSL mode."))
    else if 400 ≤ status then
      .error (.http 400 (.dict [("message", .str "Elasticsearch ESQL error"),
        ("es_response", body.getD (.dict [("raw", .str text)])), ("query", .str esql)]))
    else
      match body with
      | Option.none => .error (.uncaught "requests JSONDecodeError")
      | some data =>
        match data with
        | .dict kvs =>
          let v0 := (pyGet kvs "values").getD PyVal.none
          let values := if pyTruthy v0 then v0 else PyVal.list []
          match pyLen values with
          | some n => .ok (PyVal.int n, data)
          | Option.none => .error (.uncaught "TypeError: len")
        | _ => .error (.uncaught "AttributeError: get")

/-- Embeds the scanning loop of `_extract_first_json_object`
(src/agent/app.py lines 230-254): one character at a time, tracking the
brace nesting `depth` (an integer, as in Python), whether the scanner is
inside a double-quoted string (`inStr`) and whether the previous character
was an unconsumed backslash escape (`esc`); characters inside string regions
never change the depth; the scan stops with the accumulated substring as
soon as a closing brace returns the depth to zero. `acc` holds the consumed
characters in reverse. -/
def extract_loop : List Char → Int → Bool → Bool → List Char → Option (List Char)
  | [], _, _, _, _ => Option.none
  | c :: cs, depth, inStr, esc, acc =>
    if inStr then
      if esc then extract_loop cs depth inStr false (c :: acc)
      else if c = '\\' then extract_loop cs depth inStr true (c :: acc)
      else if c = '"' then extract_loop cs depth false esc (c :: acc)
      else extract_loop cs depth inStr esc (c :: acc)
    else
      if c = '"' then extract_loop cs depth true esc (c :: acc)
      else if c = '{' then extract_loop cs (depth + 1) inStr esc (c :: acc)
      else if c = '}' then
        if depth - 1 = 0 then some ((c :: acc).reverse)
        else extract_loop cs (depth - 1) inStr esc (c :: acc)
      else extract_loop cs depth inStr esc (c :: acc)

/-- Embeds `_extract_first_json_object` (src/agent/app.py lines 230-254):
find the first opening brace (`s.find`), then run the quote-aware
depth-tracking scan from there; no opening brace means no result. -/
def _extract_first_json_object (s : List Char) : Option (List Char) :=
  let rest := s.dropWhile (fun c => !(c = '{'))
  if rest.isEmpty then Option.none
  else extract_loop rest 0 false false []

/-- One lexical piece of a JSON string body: an ordinary character or a
backslash escape pair. Used to state what the extractor does on well-formed
serialized JSON. -/
inductive JItem where
  | ch (c : Char)
  | esc (c : Char)

def JItem.render : JItem → List Char
  | .ch c => [c]
  | .esc c => ['\\', c]

/-- Well-formedness of a string piece: an ordinary character is neither a
quote nor a backslash (those must be escaped); an escape pair is anything. -/
def JItem.Okb : JItem → Bool
  | .ch c => !(c = '"') && !(c = '\\')
  | .esc _ => true

def renderItems (its : List JItem) : List Char :=
  (its.map JItem.render).flatten

def itemsOkb (its : List JItem) : Bool :=
  its.all JItem.Okb

/-- JSON whitespace accepted between tokens (also by the `json` stdlib
parser). -/
def isJsonWs (c : Char) : Bool :=
  c = ' ' || c = '\t' || c = '\n' || c = '\r'

mutual
/-- A serialized JSON value: a quoted string, a primitive token (number,
boolean, null — any text free of quotes and braces), an array, an object,
or a value padded with whitespace on either side — the `ws value ws`
element production of the JSON grammar, so that whitespace may appear
around every array element and member value. -/
inductive JVal where
  | str (items : List JItem)
  | atom (cs : List Char)
  | arr (elems : JList)
  | obj (members : JMembers)
  | pad (ws1 : List Char) (v : JVal) (ws2 : List Char)
/-- Array elements; the empty case carries the whitespace between the
brackets. Whitespace around the elements themselves is expressed with
`JVal.pad`. -/
inductive JList where
  | nil (ws : List Char)
  | cons (hd : JVal) (tl : JList)
/-- Object members `ws "key" ws : value`, comma-separated; the empty case
carries the whitespace between the braces, and a `nil` tail after the last
member may carry further whitespace before the closing brace. -/
inductive JMembers where
  | nil (ws : List Char)
  | cons (ws0 : List Char) (key : List JItem) (ws1 : List Char) (val : JVal) (tl : JMembers)
end

mutual
/-- Serialization of a JSON value. -/
def JVal.render : JVal → List Char
  | .str its => '"' :: (renderItems its ++ ['"'])
  | .atom cs => cs
  | .arr es => '[' :: (JList.render es ++ [']'])
  | .obj ms => '{' :: (JMembers.render ms ++ ['}'])
  | .pad ws1 v ws2 => ws1 ++ (JVal.render v ++ ws2)
def JList.render : JList → List Char
  | .nil ws => ws
  | .cons v (.nil ws) => JVal.render v ++ ws
  | .cons v (.cons w tl) => JVal.render v ++ ',' :: JList.render (.cons w tl)
def JMembers.render : JMembers → List Char
  | .nil ws => ws
  | .cons ws0 k ws1 v (.nil ws) =>
    ws0 ++ ('"' :: (renderItems k ++ '"' :: (ws1 ++ ':' :: (JVal.render v ++ ws))))
  | .cons ws0 k ws1 v (.cons ws0b k2 ws1b v2 tl) =>
    (ws0 ++ ('"' :: (renderItems k ++ '"' :: (ws1 ++ ':' :: JVal.render v))))
      ++ ',' :: JMembers.render (.cons ws0b k2 ws1b v2 tl)
end

mutual
/-- Well-formedness of a serialized JSON value: string bodies contain only
properly escaped pieces; primitive tokens are non-empty and contain no
quote or brace characters; every padding slot holds only JSON whitespace. -/
def JVal.Okb : JVal → Bool
  | .str its => itemsOkb its
  | .atom cs => !cs.isEmpty && cs.all (fun c => !(c = '"') && !(c = '{') && !(c = '}'))
  | .arr es => JList.Okb es
  | .obj ms => JMembers.Okb ms
  | .pad ws1 v ws2 => ws1.all isJsonWs && JVal.Okb v && ws2.all isJsonWs
def JList.Okb : JList → Bool
  | .nil ws => ws.all isJsonWs
  | .cons v tl => JVal.Okb v && JList.Okb tl
def JMembers.Okb : JMembers → Bool
  | .nil ws => ws.all isJsonWs
  | .cons ws0 k ws1 v tl =>
    ws0.all isJsonWs && ws1.all isJsonWs && itemsOkb k && JVal.Okb v && JMembers.Okb tl
end

/-- JSON whitespace never consists of quote or brace characters, so the
scanner treats it as neutral. -/
theorem ws_all_neutral (cs : List Char) (h : cs.all isJsonWs = true) :
    cs.all (fun c => !(c = '"') && !(c = '{') && !(c = '}')) = true := by
  induction cs with
  | nil => rfl
  | cons c t ih =>
    simp only [List.all_cons, Bool.and_eq_true] at h ⊢
    refine ⟨?_, ih h.2⟩
    have hc := h.1
    simp only [isJsonWs, Bool.or_eq_true, decide_eq_true_eq] at hc
    rcases hc with ((h | h) | h) | h <;> subst h <;> decide

theorem extract_loop_instr_esc (c : Char) (cs : List Char) (d : Int) (acc : List Char) :
    extract_loop (c :: cs) d true true acc = extract_loop cs d true false (c :: acc) := by
  simp [extract_loop]

theorem extract_loop_instr_backslash (cs : List Char) (d : Int) (acc : List Char) :
    extract_loop ('\\' :: cs) d true false acc = extract_loop cs d true true ('\\' :: acc) := by
  simp [extract_loop]

theorem extract_loop_instr_quote (cs : List Char) (d : Int) (acc : List Char) :
    extract_loop ('"' :: cs) d true false acc = extract_loop cs d false false ('"' :: acc) := by
  simp [extract_loop]

theorem extract_loop_instr_char (c : Char) (cs : List Char) (d : Int) (acc : List Char)
    (h1 : ¬ c = '\\') (h2 : ¬ c = '"') :
    extract_loop (c :: cs) d true false acc = extract_loop cs d true false (c :: acc) := by
  simp [extract_loop, h1, h2]

theorem extract_loop_quote_open (cs : List Char) (d : Int) (acc : List Char) :
    extract_loop ('"' :: cs) d false false acc = extract_loop cs d true false ('"' :: acc) := by
  simp [extract_loop]

theorem extract_loop_brace_open (cs : List Char) (d : Int) (acc : List Char) :
    extract_loop ('{' :: cs) d false false acc
      = extract_loop cs (d + 1) false false ('{' :: acc) := by
  simp [extract_loop]

theorem extract_loop_brace_close (cs : List Char) (d : Int) (acc : List Char)
    (h : ¬ d - 1 = 0) :
    extract_loop ('}' :: cs) d false false acc
      = extract_loop cs (d - 1) false false ('}' :: acc) := by
  simp [extract_loop, h]

theorem extract_loop_brace_close_done (cs : List Char) (d : Int) (acc : List Char)
    (h : d - 1 = 0) :
    extract_loop ('}' :: cs) d false false acc = some (('}' :: acc).reverse) := by
  simp [extract_loop, h]

theorem extract_loop_neutral (c : Char) (cs : List Char) (d : Int) (acc : List Char)
    (h1 : ¬ c = '"') (h2 : ¬ c = '{') (h3 : ¬ c = '}') :
    extract_loop (c :: cs) d false false acc = extract_loop cs d false false (c :: acc) := by
  simp [extract_loop, h1, h2, h3]

/-- Scanning a well-formed string body leaves the machine inside the string
with no pending escape and the depth untouched. -/
theorem scan_items (its : List JItem) (h : itemsOkb its = true) :
    ∀ (cs acc : List Char) (d : Int),
    extract_loop (renderItems its ++ cs) d true false acc
      = extract_loop cs d true false ((renderItems its).reverse ++ acc) := by
  induction its with
  | nil => intro cs acc d; simp [renderItems]
  | cons i t ih =>
    intro cs acc d
    simp only [itemsOkb, List.all_cons, Bool.and_eq_true] at h
    obtain ⟨hi, ht⟩ := h
    have ht' : itemsOkb t = true := ht
    cases i with
    | ch c =>
      simp only [JItem.Okb, Bool.and_eq_true, Bool.not_eq_true', decide_eq_false_iff_not] at hi
      have e1 : renderItems (JItem.ch c :: t) = c :: renderItems t := by
        simp [renderItems, JItem.render]
      rw [e1, List.cons_append,
        extract_loop_instr_char c _ d acc hi.2 hi.1, ih ht']
      simp [List.append_assoc]
    | esc c =>
      have e1 : renderItems (JItem.esc c :: t) = '\\' :: c :: renderItems t := by
        simp [renderItems, JItem.render]
      rw [e1, List.cons_append, List.cons_append,
        extract_loop_instr_backslash, extract_loop_instr_esc, ih ht']
      simp [List.append_assoc]

/-- Scanning a full quoted string returns the machine to non-string state
with the depth untouched. -/
theorem scan_string (its : List JItem) (h : itemsOkb its = true)
    (cs acc : List Char) (d : Int) :
    extract_loop (('"' :: (renderItems its ++ ['"'])) ++ cs) d false false acc
      = extract_loop cs d false false
          (('"' :: (renderItems its ++ ['"'])).reverse ++ acc) := by
  rw [List.cons_append, extract_loop_quote_open]
  rw [List.append_assoc, List.singleton_append, scan_items its h]
  rw [extract_loop_instr_quote]
  simp [List.append_assoc]

/-- Scanning a run of characters free of quotes and braces is neutral. -/
theorem scan_atom (cs0 : List Char)
    (h : cs0.all (fun c => !(c = '"') && !(c = '{') && !(c = '}')) = true) :
    ∀ (cs acc : List Char) (d : Int),
    extract_loop (cs0 ++ cs) d false false acc
      = extract_loop cs d false false (cs0.reverse ++ acc) := by
  induction cs0 with
  | nil => intro cs acc d; simp
  | cons c t ih =>
    intro cs acc d
    simp only [List.all_cons, Bool.and_eq_true, Bool.not_eq_true',
      decide_eq_false_iff_not] at h
    obtain ⟨⟨⟨h1, h2⟩, h3⟩, ht⟩ := h
    rw [List.cons_append, extract_loop_neutral c _ d acc h1 h2 h3,
      ih (by simpa [List.all_eq_true, Bool.and_eq_true, Bool.not_eq_true',
        decide_eq_false_iff_not] using ht)]
    simp [List.append_assoc]

mutual
/-- Scanning any well-formed serialized JSON value from outside a string at
positive depth is neutral: the machine consumes it, keeps state, and never
closes the scan early. -/
theorem scan_val (v : JVal) (h : JVal.Okb v = true) (d : Int) (hd : 1 ≤ d) :
    ∀ (cs acc : List Char),
    extract_loop (JVal.render v ++ cs) d false false acc
      = extract_loop cs d false false ((JVal.render v).reverse ++ acc) := by
  intro cs acc
  cases v with
  | str its =>
    exact scan_string its (by simpa [JVal.Okb] using h) cs acc d
  | atom cs0 =>
    have h' : cs0.all (fun c => !(c = '"') && !(c = '{') && !(c = '}')) = true := by
      simp only [JVal.Okb, Bool.and_eq_true] at h
      exact h.2
    exact scan_atom cs0 h' cs acc d
  | arr es =>
    have h' : JList.Okb es = true := by simpa [JVal.Okb] using h
    rw [JVal.render, List.cons_append, extract_loop_neutral '[' _ d acc
      (by decide) (by decide) (by decide)]
    rw [List.append_assoc, List.singleton_append, scan_list es h' d hd]
    rw [extract_loop_neutral ']' _ d _ (by decide) (by decide) (by decide)]
    simp [List.append_assoc]
  | obj ms =>
    have h' : JMembers.Okb ms = true := by simpa [JVal.Okb] using h
    rw [JVal.render, List.cons_append, extract_loop_brace_open]
    rw [List.append_assoc, List.singleton_append,
      scan_members ms h' (d + 1) (by omega)]
    rw [extract_loop_brace_close _ _ _ (by omega)]
    have e : d + 1 - 1 = d := by omega
    rw [e]
    simp [List.append_assoc]
  | pad ws1 v2 ws2 =>
    simp only [JVal.Okb, Bool.and_eq_true] at h
    rw [JVal.render, List.append_assoc, scan_atom ws1 (ws_all_neutral ws1 h.1.1)]
    rw [List.append_assoc, scan_val v2 h.1.2 d hd]
    rw [scan_atom ws2 (ws_all_neutral ws2 h.2)]
    simp [List.append_assoc]

theorem scan_list (es : JList) (h : JList.Okb es = true) (d : Int) (hd : 1 ≤ d) :
    ∀ (cs acc : List Char),
    extract_loop (JList.render es ++ cs) d false false acc
      = extract_loop cs d false false ((JList.render es).reverse ++ acc) := by
  intro cs acc
  cases es with
  | nil ws =>
    have hws : ws.all isJsonWs = true := by simpa only [JList.Okb] using h
    rw [JList.render]
    exact scan_atom ws (ws_all_neutral ws hws) cs acc d
  | cons v tl =>
    simp only [JList.Okb, Bool.and_eq_true] at h
    cases tl with
    | nil ws =>
      have hws : ws.all isJsonWs = true := by simpa only [JList.Okb] using h.2
      rw [JList.render, List.append_assoc, scan_val v h.1 d hd]
      rw [scan_atom ws (ws_all_neutral ws hws)]
      simp [List.append_assoc]
    | cons w tl2 =>
      rw [JList.render, List.append_assoc, scan_val v h.1 d hd]
      rw [List.cons_append, extract_loop_neutral ',' _ d _
        (by decide) (by decide) (by decide)]
      rw [scan_list (JList.cons w tl2) h.2 d hd]
      simp [List.append_assoc]

theorem scan_members (ms : JMembers) (h : JMembers.Okb ms = true) (d : Int) (hd : 1 ≤ d) :
    ∀ (cs acc : List Char),
    extract_loop (JMembers.render ms ++ cs) d false false acc
      = extract_loop cs d false false ((JMembers.render ms).reverse ++ acc) := by
  intro cs acc
  cases ms with
  | nil ws =>
    have hws : ws.all isJsonWs = true := by simpa only [JMembers.Okb] using h
    rw [JMembers.render]
    exact scan_atom ws (ws_all_neutral ws hws) cs acc d
  | cons ws0 k ws1 v tl =>
    simp only [JMembers.Okb, Bool.and_eq_true] at h
    obtain ⟨⟨⟨⟨h0, h1⟩, hk⟩, hv⟩, ht⟩ := h
    cases tl with
    | nil ws =>
      have hws : ws.all isJsonWs = true := by simpa only [JMembers.Okb] using ht
      rw [JMembers.render, List.append_assoc, scan_atom ws0 (ws_all_neutral ws0 h0)]
      rw [List.cons_append, extract_loop_quote_open, List.append_assoc]
      rw [scan_items k hk]
      rw [List.cons_append, extract_loop_instr_quote]
      rw [List.append_assoc, scan_atom ws1 (ws_all_neutral ws1 h1)]
      rw [List.cons_append, extract_loop_neutral ':' _ d _ (by decide) (by decide) (by decide)]
      rw [List.append_assoc, scan_val v hv d hd]
      rw [scan_atom ws (ws_all_neutral ws hws)]
      simp [List.append_assoc]
    | cons ws0b k2 ws1b v2 tl2 =>
      rw [JMembers.render, List.append_assoc, List.append_assoc,
        scan_atom ws0 (ws_all_neutral ws0 h0)]
      rw [List.cons_append, extract_loop_quote_open, List.append_assoc]
      rw [scan_items k hk]
      rw [List.cons_append, extract_loop_instr_quote]
      rw [List.append_assoc, scan_atom ws1 (ws_all_neutral ws1 h1)]
      rw [List.cons_append, extract_loop_neutral ':' _ d _ (by decide) (by decide) (by decide)]
      rw [scan_val v hv d hd]
      rw [List.cons_append, extract_loop_neutral ',' _ d _ (by decide) (by decide) (by decide)]
      rw [scan_members (JMembers.cons ws0b k2 ws1b v2 tl2) ht d hd]
      simp [List.append_assoc]
end

theorem dropWhile_append_all {p : Char → Bool} (pre l : List Char)
    (hpre : pre.all p = true) :
    (pre ++ l).dropWhile p = l.dropWhile p := by
  induction pre with
  | nil => simp
  | cons c t ih =>
    simp only [List.all_cons, Bool.and_eq_true] at hpre
    rw [List.cons_append, List.dropWhile_cons_of_pos hpre.1]
    exact ih hpre.2

/-- Claim C4 (confirmed): for any text whose first opening brace starts a
well-formed serialized JSON object — arbitrary prefix free of opening
braces, arbitrary suffix, whitespace anywhere the JSON grammar allows it
between tokens — `_extract_first_json_object` returns exactly the substring
spanning that object, because the quote-aware scan treats braces inside
string regions (including after escapes) as not affecting depth and stops
when the depth first returns to zero. String values may contain literal
brace characters. -/
theorem c4_extract_first_json_object (ms : JMembers) (h : JMembers.Okb ms = true)
    (pre suf : List Char) (hpre : pre.all (fun c => !(c = '{')) = true) :
    _extract_first_json_object (pre ++ (JVal.render (JVal.obj ms) ++ suf))
      = some (JVal.render (JVal.obj ms)) := by
  have hdrop : (pre ++ (JVal.render (JVal.obj ms) ++ suf)).dropWhile (fun c => !(c = '{'))
      = '{' :: ((JMembers.render ms ++ ['}']) ++ suf) := by
    rw [dropWhile_append_all pre _ hpre, JVal.render, List.cons_append,
      List.dropWhile_cons_of_neg (by simp)]
  simp only [_extract_first_json_object, hdrop, List.isEmpty_cons, Bool.false_eq_true,
    if_false]
  rw [extract_loop_brace_open, zero_add, List.append_assoc, List.singleton_append]
  rw [scan_members ms h 1 (by omega)]
  rw [extract_loop_brace_close_done _ _ _ (by omega)]
  rw [JVal.render]
  simp

/-- Claim C4 (witness): the ordinarily formatted object whose rendering is
the text `\x7b"k": "a\x7bb\x7d", "n" : 1 \x7d` — a space before the
brace-containing string value, spaces around the second key and value — is
extracted exactly, out of surrounding prose, with a stray closing brace in
the suffix ignored. -/
theorem c4_extract_first_json_object_witness :
    _extract_first_json_object
        ((String.data "Here is the query: ")
          ++ (JVal.render (JVal.obj (JMembers.cons [] [JItem.ch 'k'] []
                (JVal.pad [' '] (JVal.str [JItem.ch 'a', JItem.ch '{', JItem.ch 'b', JItem.ch '}']) [])
                (JMembers.cons [' '] [JItem.ch 'n'] [' ']
                  (JVal.pad [' '] (JVal.atom ['1']) [' '])
                  (JMembers.nil []))))
            ++ (String.data " trailing\x7d")))
      = some (JVal.render (JVal.obj (JMembers.cons [] [JItem.ch 'k'] []
          (JVal.pad [' '] (JVal.str [JItem.ch 'a', JItem.ch '{', JItem.ch 'b', JItem.ch '}']) [])
          (JMembers.cons [' '] [JItem.ch 'n'] [' ']
            (JVal.pad [' '] (JVal.atom ['1']) [' '])
            (JMembers.nil []))))) :=
  c4_extract_first_json_object
    (JMembers.cons [] [JItem.ch 'k'] []
      (JVal.pad [' '] (JVal.str [JItem.ch 'a', JItem.ch '{', JItem.ch 'b', JItem.ch '}']) [])
      (JMembers.cons [' '] [JItem.ch 'n'] [' ']
        (JVal.pad [' '] (JVal.atom ['1']) [' '])
        (JMembers.nil [])))
    (by decide) (String.data "Here is the query: ") (String.data " trailing\x7d") (by decide)

/-- Claim C3 (confirmed): `run_es_dsl` enforces the size cap on the body it
executes. A body without a size field is executed with size set to
`size_cap`; a body whose (integer-convertible) size exceeds `size_cap` is
executed with size overwritten to `size_cap`; a body whose size is at most
`size_cap` is executed completely unchanged — the cap only clamps downward.
The executed body is exactly the argument handed to the `store` parameter. -/
theorem c3_size_cap (store : List (String × PyVal) → StoreOutcome)
    (dsl : List (String × PyVal)) (size_cap : Int) (url : String)
    (hcap : 0 < size_cap) :
    (pyGet dsl "size" = Option.none →
      run_es_dsl store dsl size_cap url
        = (run_es_dsl_send (store (pySet dsl "size" (.int size_cap)))
            (pySet dsl "size" (.int size_cap)) url).map
            (fun r => (r.1, r.2, pySet dsl "size" (.int size_cap))))
    ∧ (∀ v n, pyGet dsl "size" = some v → pyInt v = some n → size_cap < n →
      run_es_dsl store dsl size_cap url
        = (run_es_dsl_send (store (pySet dsl "size" (.int size_cap)))
            (pySet dsl "size" (.int size_cap)) url).map
            (fun r => (r.1, r.2, pySet dsl "size" (.int size_cap))))
    ∧ (∀ v n, pyGet dsl "size" = some v → pyInt v = some n → n ≤ size_cap →
      run_es_dsl store dsl size_cap url
        = (run_es_dsl_send (store dsl) dsl url).map (fun r => (r.1, r.2, dsl))) := by
  refine ⟨fun h => ?_, fun v n hv hn hgt => ?_, fun v n hv hn hle => ?_⟩
  · simp [run_es_dsl, h]
  · simp [run_es_dsl, hv, hn, hgt]
  · have : ¬ size_cap < n := by omega
    simp [run_es_dsl, hv, hn, this]

/-- Claim C3 (witness): a body with `size: 10` under cap 25 is executed
unchanged, exercising the downward-only clamp at a concrete input. -/
theorem c3_size_cap_witness :
    run_es_dsl (fun _ => StoreOutcome.resp 200 (some (PyVal.dict [])) "")
        [("size", PyVal.int 10)] 25 "http://localhost:9200/springboot-logs-*/_search"
      = (run_es_dsl_send
          ((fun _ => StoreOutcome.resp 200 (some (PyVal.dict [])) "") [("size", PyVal.int 10)])
          [("size", PyVal.int 10)] "http://localhost:9200/springboot-logs-*/_search").map
          (fun r => (r.1, r.2, [("size", PyVal.int 10)])) :=
  (c3_size_cap (fun _ => StoreOutcome.resp 200 (some (PyVal.dict [])) "")
    [("size", PyVal.int 10)] 25 "http://localhost:9200/springboot-logs-*/_search"
    (by decide)).2.2 (PyVal.int 10) 10 rfl rfl (by decide)

/-- Claim C10 (confirmed): when the body carries a `size` value that Python
`int()` cannot convert, `run_es_dsl` raises the uncaught conversion error —
not an `HTTPException` of the validation taxonomy — and does so for every
possible store, i.e. before any request is sent. -/
theorem c10_nonconvertible_size (store : List (String × PyVal) → StoreOutcome)
    (dsl : List (String × PyVal)) (size_cap : Int) (url : String) (v : PyVal)
    (hv : pyGet dsl "size" = some v) (hn : pyInt v = Option.none) :
    run_es_dsl store dsl size_cap url
      = .error (.uncaught "ValueError: int conversion of size failed") := by
  simp [run_es_dsl, hv, hn]

/-- Claim C10 (witness): a body with the non-numeric size string "twenty"
fails with the uncaught conversion error at a concrete input. -/
theorem c10_nonconvertible_size_witness :
    run_es_dsl (fun _ => StoreOutcome.resp 200 (some (PyVal.dict [])) "")
        [("query", PyVal.dict []), ("size", PyVal.str "twenty")] 25 "u"
      = .error (.uncaught "ValueError: int conversion of size failed") :=
  c10_nonconvertible_size (fun _ => StoreOutcome.resp 200 (some (PyVal.dict [])) "")
    [("query", PyVal.dict []), ("size", PyVal.str "twenty")] 25 "u"
    (PyVal.str "twenty") rfl rfl

/-- Claim C9 (counterexample): a 404 from the pipeline-query endpoint is
surfaced by `run_es_esql` as a 400 bad-request `HTTPException` (the same
status class used for `StoreQueryError`), not as the gateway-style 502
failure the claim requires; only transport errors get 502. -/
theorem c9_counterexample :
    run_es_esql (.resp 404 Option.none "Not Found") "FROM logs | LIMIT 5"
      = .error (.http 400 (.str "ESQL endpoint \x27/_query\x27 not found on this cluster. Switch to DSL mode."))
    ∧ run_es_esql (.transport "connection refused") "FROM logs | LIMIT 5"
      = .error (.http 502 (.dict [("message", .str "Elasticsearch ESQL transport error"),
          ("error", .str "connection refused"), ("query", .str "FROM logs | LIMIT 5")])) :=
  ⟨rfl, rfl⟩

/-- Claim C9 (amended): a 404 from the pipeline-query endpoint fails with the
distinct fixed message directing the caller to the DSL mode, surfaced as a
400 bad-request with a plain-string detail — distinct in shape (though not
in status code) from the dict-shaped detail carrying the store error body
used for other statuses >= 400; gateway-style 502 surfacing is reserved for
transport failures. -/
theorem c9_amended (body : Option PyVal) (text q : String) (status : Nat) :
    (run_es_esql (.resp 404 body text) q
      = .error (.http 400 (.str "ESQL endpoint \x27/_query\x27 not found on this cluster. Switch to DSL mode.")))
    ∧ (400 ≤ status → status ≠ 404 →
      run_es_esql (.resp status body text) q
        = .error (.http 400 (.dict [("message", .str "Elasticsearch ESQL error"),
            ("es_response", body.getD (.dict [("raw", .str text)])), ("query", .str q)])))
    ∧ (∀ m, run_es_esql (.transport m) q
        = .error (.http 502 (.dict [("message", .str "Elasticsearch ESQL transport error"),
            ("error", .str m), ("query", .str q)]))) := by
  refine ⟨by simp [run_es_esql], fun h400 hne => ?_, fun m => rfl⟩
  simp [run_es_esql, hne, h400]

/-- Claim C9 (witness): the three surfacing shapes at concrete inputs —
status 404, status 400 with a store error body, and a transport failure. -/
theorem c9_amended_witness :
    (run_es_esql (.resp 404 (some (PyVal.dict [])) "nf") "FROM a | LIMIT 1"
      = .error (.http 400 (.str "ESQL endpoint \x27/_query\x27 not found on this cluster. Switch to DSL mode.")))
    ∧ (run_es_esql (.resp 400 (some (PyVal.dict [("error", PyVal.str "parse")])) "t") "FROM a | LIMIT 1"
      = .error (.http 400 (.dict [("message", .str "Elasticsearch ESQL error"),
          ("es_response", (some (PyVal.dict [("error", PyVal.str "parse")])).getD (.dict [("raw", .str "t")])),
          ("query", .str "FROM a | LIMIT 1")])))
    ∧ (run_es_esql (.transport "refused") "FROM a | LIMIT 1"
      = .error (.http 502 (.dict [("message", .str "Elasticsearch ESQL transport error"),
          ("error", .str "refused"), ("query", .str "FROM a | LIMIT 1")]))) :=
  ⟨(c9_amended (some (PyVal.dict [])) "nf" "FROM a | LIMIT 1" 404).1,
   (c9_amended (some (PyVal.dict [("error", PyVal.str "parse")])) "t" "FROM a | LIMIT 1" 400).2.1
     (by decide) (by decide),
   (c9_amended (some (PyVal.dict [])) "" "FROM a | LIMIT 1" 0).2.2 "refused"⟩

def hexVal (c : Char) : Option Nat :=
  if c.isDigit then some (c.toNat - 48)
  else if 'a' ≤ c && c ≤ 'f' then some (c.toNat - 87)
  else if 'A' ≤ c && c ≤ 'F' then some (c.toNat - 55)
  else Option.none

def jparseHex4 (cs : List Char) : Option (Nat × List Char) :=
  match cs with
  | a :: b :: c :: d :: rest =>
    match hexVal a, hexVal b, hexVal c, hexVal d with
    | some x, some y, some z, some w => some (((x * 16 + y) * 16 + z) * 16 + w, rest)
    | _, _, _, _ => Option.none
  | _ => Option.none

/-- JSON string body after the opening quote: ordinary characters, the
simple escapes and 4-hex-digit unicode escapes, up to the closing quote. -/
def jparseString (fuel : Nat) (cs : List Char) (acc : List Char) : Option (String × List Char) :=
  match fuel with
  | 0 => Option.none
  | fuel + 1 =>
    match cs with
    | [] => Option.none
    | c :: rest =>
      if c = '"' then some (String.mk acc.reverse, rest)
      else if c = '\\' then
        match rest with
        | [] => Option.none
        | e :: rest2 =>
          if e = '"' then jparseString fuel rest2 ('"' :: acc)
          else if e = '\\' then jparseString fuel rest2 ('\\' :: acc)
          else if e = '/' then jparseString fuel rest2 ('/' :: acc)
          else if e = 'b' then jparseString fuel rest2 ('\x08' :: acc)
          else if e = 'f' then jparseString fuel rest2 ('\x0c' :: acc)
          else if e = 'n' then jparseString fuel rest2 ('\n' :: acc)
          else if e = 'r' then jparseString fuel rest2 ('\r' :: acc)
          else if e = 't' then jparseString fuel rest2 ('\t' :: acc)
          else if e = 'u' then
            match jparseHex4 rest2 with
            | some (n, rest3) =>
              if h : n < 1114112 then jparseString fuel rest3 (Char.ofNat n :: acc)
              else Option.none
            | Option.none => Option.none
          else Option.none
      else if c.toNat < 32 then Option.none
      else jparseString fuel rest (c :: acc)

/-- JSON number token. Only integers are modelled: a fractional part or an
exponent makes the parse fail, since no behaviour verified here involves a
float. Leading-zero rejection is not modelled. -/
def jparseNumber (cs : List Char) : Option (Int × List Char) :=
  let signed : Bool × List Char :=
    match cs with
    | '-' :: t => (true, t)
    | t => (false, t)
  let ds := signed.2.takeWhile Char.isDigit
  let rest := signed.2.dropWhile Char.isDigit
  if ds.isEmpty then Option.none
  else
    match rest with
    | '.' :: _ => Option.none
    | 'e' :: _ => Option.none
    | 'E' :: _ => Option.none
    | _ => some ((if signed.1 then -1 else 1) * digitsToInt ds, rest)

mutual
/-- Recursive-descent JSON value parser modelling Python `json.loads`
(fuel-indexed; the top-level wrapper supplies ample fuel). -/
def jparseVal : Nat → List Char → Option (PyVal × List Char)
  | 0, _ => Option.none
  | fuel + 1, cs0 =>
    let cs := cs0.dropWhile isJsonWs
    match cs with
    | [] => Option.none
    | c :: rest =>
      if c = '{' then
        match rest.dropWhile isJsonWs with
        | '}' :: rest2 => some (.dict [], rest2)
        | cs1 => jparseMembersLoop fuel cs1 []
      else if c = '[' then
        match rest.dropWhile isJsonWs with
        | ']' :: rest2 => some (.list [], rest2)
        | cs1 => jparseElemsLoop fuel cs1 []
      else if c = '"' then
        match jparseString fuel rest [] with
        | some (s, rest2) => some (.str s, rest2)
        | Option.none => Option.none
      else
        match cs with
        | 't' :: 'r' :: 'u' :: 'e' :: rest2 => some (.bool true, rest2)
        | 'f' :: 'a' :: 'l' :: 's' :: 'e' :: rest2 => some (.bool false, rest2)
        | 'n' :: 'u' :: 'l' :: 'l' :: rest2 => some (.none, rest2)
        | _ =>
          match jparseNumber cs with
          | some (n, rest2) => some (.int n, rest2)
          | Option.none => Option.none

/-- Members of a JSON object after its opening brace (non-empty case):
`"key": value` pairs; a duplicate key overwrites the earlier entry, as in a
Python dict. -/
def jparseMembersLoop : Nat → List Char → List (String × PyVal) → Option (PyVal × List Char)
  | 0, _, _ => Option.none
  | fuel + 1, cs, acc =>
    match cs.dropWhile isJsonWs with
    | '"' :: rest =>
      match jparseString fuel rest [] with
      | some (k, rest2) =>
        match rest2.dropWhile isJsonWs with
        | ':' :: rest3 =>
          match jparseVal fuel rest3 with
          | some (v, rest4) =>
            match rest4.dropWhile isJsonWs with
            | ',' :: rest5 => jparseMembersLoop fuel rest5 (pySet acc k v)
            | '}' :: rest5 => some (.dict (pySet acc k v), rest5)
            | _ => Option.none
          | Option.none => Option.none
        | _ => Option.none
      | Option.none => Option.none
    | _ => Option.none

/-- Elements of a JSON array after its opening bracket (non-empty case). -/
def jparseElemsLoop : Nat → List Char → List PyVal → Option (PyVal × List Char)
  | 0, _, _ => Option.none
  | fuel + 1, cs, acc =>
    match jparseVal fuel cs with
    | some (v, rest) =>
      match rest.dropWhile isJsonWs with
      | ',' :: rest2 => jparseElemsLoop fuel rest2 (acc ++ [v])
      | ']' :: rest2 => some (.list (acc ++ [v]), rest2)
      | _ => Option.none
    | Option.none => Option.none
end

/-- Model of Python `json.loads`: parse one JSON value and require that only
whitespace follows; `none` models a raised `json.JSONDecodeError`. -/
def json_loads (s : String) : Option PyVal :=
  match jparseVal (s.data.length + 2) s.data with
  | some (v, rest) => if (rest.dropWhile isJsonWs).isEmpty then some v else Option.none
  | Option.none => Option.none

/-- The backtick character, written by code point to keep it out of the
source text. -/
def btick : Char := Char.ofNat 96

def startsWithTicks : List Char → Bool
  | a :: b :: c :: _ => a = btick && b = btick && c = btick
  | _ => false

/-- Characters up to (excluding) the first triple-backtick, or `none` when
there is none. -/
def takeUntilTicks : List Char → Option (List Char)
  | [] => Option.none
  | c :: cs =>
    if startsWithTicks (c :: cs) then some []
    else (takeUntilTicks cs).map (fun b => c :: b)

/-- Matching attempt of the fenced-block regex right after an opening triple
backtick: optionally consume a case-insensitive `json` tag, then greedy
whitespace, then the lazy group running up to the closing triple backtick. -/
def fencedAt (cs : List Char) : Option (List Char) :=
  let cs1 :=
    match cs with
    | j :: s :: o :: n :: rest =>
      if j.toLower = 'j' && s.toLower = 's' && o.toLower = 'o' && n.toLower = 'n'
      then rest else j :: s :: o :: n :: rest
    | other => other
  takeUntilTicks (cs1.dropWhile isPySpace)

/-- Embeds the search for the fenced-code-block pattern — triple backtick,
optional `json` tag, whitespace, lazily captured body, closing triple
backtick — with the leftmost successful start position winning, as
performed at src/agent/app.py line 221. -/
def fencedSearch : List Char → Option (List Char)
  | [] => Option.none
  | c :: cs =>
    if startsWithTicks (c :: cs) then
      match fencedAt ((c :: cs).drop 3) with
      | some body => some body
      | Option.none => fencedSearch cs
    else fencedSearch cs

def isWordChar (c : Char) : Bool :=
  c.isAlpha || c.isDigit || c = '_'

/-- One attempt of the pipeline-keyword pattern at a position: a word
boundary (start of text or non-word character before), the exact word `w`,
then at least one whitespace character and then a non-space character. -/
def from_match_at (prev : Option Char) (cs : List Char) (w : List Char) : Bool :=
  (match prev with
   | Option.none => true
   | some p => !isWordChar p) &&
  w.isPrefixOf cs &&
  (let rest := cs.drop w.length
   !(rest.takeWhile isPySpace).isEmpty && !(rest.dropWhile isPySpace).isEmpty)

def search_from : Option Char → List Char → Bool
  | _, [] => false
  | prev, c :: cs =>
    from_match_at prev (c :: cs) ['F', 'R', 'O', 'M'] ||
    from_match_at prev (c :: cs) ['f', 'r', 'o', 'm'] ||
    search_from (some c) cs

/-- Embeds the ESQL-salvage trigger at src/agent/app.py line 264: a search
for the all-uppercase word `FROM` or the all-lowercase word `from` (the two
regex alternatives; no IGNORECASE flag is set there), each at a word
boundary and followed by whitespace and a non-space token. -/
def looks_like_esql (cs : List Char) : Bool :=
  search_from Option.none cs

/-- Matching attempt of the quoted-after-colon pattern right after a colon:
optional whitespace, a double quote, one or more non-quote characters
(greedy), and a closing double quote; yields the captured group. -/
def colon_quoted_at (cs : List Char) : Option (List Char) :=
  match cs.dropWhile isPySpace with
  | '"' :: rest =>
    let body := rest.takeWhile (fun c => !(c = '"'))
    if body.isEmpty then Option.none
    else
      match rest.dropWhile (fun c => !(c = '"')) with
      | '"' :: _ => some body
      | _ => Option.none
  | _ => Option.none

/-- Embeds the search for the quoted-pipeline pattern (colon, whitespace,
quoted non-empty string) at src/agent/app.py line 268, leftmost match. -/
def colon_quoted : List Char → Option (List Char)
  | [] => Option.none
  | c :: cs =>
    if c = ':' then
      match colon_quoted_at cs with
      | some b => some b
      | Option.none => colon_quoted cs
    else colon_quoted cs

/-- The diagnostic detail of the `UnrecoverableOutput` failure
(src/agent/app.py lines 277-281). -/
def unrecoverable_detail : String :=
  "Model did not return valid JSON in \x27response\x27 and no parsable JSON/ESQL could be recovered. Review the server logs for the raw output and adjust the prompt/model."

/-- Embeds the deterministic recovery portion of `_ollama_generate_json`
(src/agent/app.py lines 170 and 211-281), taking the joined stream text as
input (the network aggregation itself is outside the model): strip; fail
with a 500 if empty; then try, in order, a direct JSON parse, a fenced-block
parse, a balanced-brace extraction parse, and the ESQL salvage heuristic;
raise the `UnrecoverableOutput` 500 if all fail. Each parse strategy
accepts whatever JSON value `json.loads` yields — no mapping check is
performed. -/
def ollama_generate_json (joined : String) : Except PyErr PyVal :=
  let combined := pyStripStr joined
  if combined.isEmpty then
    .error (.http 500 (.str "Model returned an empty \x27response\x27."))
  else
    match json_loads combined with
    | some v => .ok v
    | Option.none =>
      match (fencedSearch combined.data).bind
          (fun g => json_loads (String.mk (pyStrip g))) with
      | some v => .ok v
      | Option.none =>
        match (_extract_first_json_object combined.data).bind
            (fun b => if b.isEmpty then Option.none else json_loads (String.mk b)) with
        | some v => .ok v
        | Option.none =>
          if looks_like_esql combined.data then
            let pipeline := (colon_quoted combined.data).getD combined.data
            .ok (.dict [("mode", .str "esql"),
              ("query", .str (String.mk (pyStrip pipeline))),
              ("explanation", .str "Heuristically recovered ESQL from a non-JSON response")])
          else
            .error (.http 500 (.str unrecoverable_detail))

/-- The inbound request model `AskRequest` (src/agent/app.py lines 62-66)
with its defaults. -/
structure AskRequest where
  question : String
  time_range : Option String := Option.none
  size : Int := 25
  prefer : Option String := Option.none

/-- The response model `AskResponse` (src/agent/app.py lines 69-75).
Fields that Python would coerce through pydantic are kept as values. -/
structure AskResponse where
  mode : String
  query : PyVal
  hits : PyVal
  sample : PyVal
  answer : PyVal
  llm_raw : PyVal

/-- Embeds the mode extraction and validation of `ask` (src/agent/app.py
lines 454-458): `mode = (llm.get("mode") or "esql").lower()` — a missing or
falsy mode field silently defaults to `esql` — followed by the membership
check raising the invalid-mode 400; `.lower()` on a truthy non-string mode
raises an uncaught `AttributeError`. -/
def validate_mode (llm : List (String × PyVal)) : Except PyErr String :=
  let m : PyVal :=
    match pyGet llm "mode" with
    | Option.none => .str "esql"
    | some v => if pyTruthy v then v else .str "esql"
  match m with
  | .str s =>
    let low := pyLower s
    if low = "esql" ∨ low = "dsl" then .ok low
    else .error (.http 400 (.str ("Model returned invalid mode: " ++ low)))
  | _ => .error (.uncaught "AttributeError: lower")

/-- The placeholder-literal set rejected as ESQL (src/agent/app.py
line 472). -/
def bad_literals : List String := ["esql", "dsl", "query", "sql"]

/-- Case-insensitive character-list prefix test (ASCII lowering, as the
operator keywords are ASCII). -/
def ci_isPrefixOf : List Char → List Char → Bool
  | [], _ => true
  | _ :: _, [] => false
  | a :: as, b :: bs => a.toLower = b.toLower && ci_isPrefixOf as bs

/-- One attempt of the pipeline-operator pattern at a position: word
boundary, the keyword case-insensitively, word boundary after. -/
def op_word_at (prev : Option Char) (cs : List Char) (w : List Char) : Bool :=
  (match prev with
   | Option.none => true
   | some p => !isWordChar p) &&
  ci_isPrefixOf w cs &&
  (match cs.drop w.length with
   | [] => true
   | c :: _ => !isWordChar c)

def op_words : List (List Char) :=
  (["where", "stats", "sort", "limit", "eval", "keep", "drop",
    "rename", "grok", "dissect"]).map String.data

def search_op : Option Char → List Char → Bool
  | _, [] => false
  | prev, c :: cs =>
    op_words.any (fun w => op_word_at prev (c :: cs) w) || search_op (some c) cs

/-- Embeds the operator-keyword regex search of `ask` (src/agent/app.py
line 478): a case-insensitive word-boundary match for one of the ten
recognised pipeline-stage keywords anywhere in the string. -/
def has_pipeline_op (cs : List Char) : Bool :=
  search_op Option.none cs

/-- Embeds the summarization step of `ask` (src/agent/app.py lines 493-515),
taking the joined text of the summary model call: only an `HTTPException`
from the nested recovery is caught and replaced by the placeholder; a
non-mapping recovery result makes `summary_obj.get` raise an uncaught
`AttributeError` which the `except HTTPException` clause does not catch. -/
def summarize_answer (summaryJoined : String) : Except PyErr PyVal :=
  match ollama_generate_json summaryJoined with
  | .error (.http _ _) => .ok (.str "(summary unavailable; see raw results)")
  | .error (.uncaught m) => .error (.uncaught m)
  | .ok (.dict kvs) =>
    let a := (pyGet kvs "summary").getD PyVal.none
    .ok (if pyTruthy a then a else .str "(no summary)")
  | .ok _ => .error (.uncaught "AttributeError: get")

/-- The sample truncation of the response construction (src/agent/app.py
line 521): `sample[:5] if isinstance(sample, list) else sample`. -/
def truncate_sample : PyVal → PyVal
  | .list xs => .list (xs.take 5)
  | other => other

/-- Embeds the tail of `ask` (src/agent/app.py lines 493-524): run the
summarization step, then build the response, truncating a list-shaped
sample to its first five elements. -/
def finish (mode : String) (query hits sample llm_raw : PyVal)
    (summaryJoined : String) : Except PyErr AskResponse :=
  match summarize_answer summaryJoined with
  | .error e => .error e
  | .ok answer =>
    .ok { mode := mode, query := query, hits := hits,
          sample := truncate_sample sample,
          answer := answer, llm_raw := llm_raw }

/-- Embeds the pre-summary part of `ask` (src/agent/app.py lines 448-491):
recover the model output from the joined main-call text, read and validate
the mode, dispatch on it with the per-branch query validation, execute
through the store, and yield `(mode, query, hits, sample, llm_raw)` — with
`query` the normalized pipeline (ESQL) or the in-place-mutated body (DSL),
exactly the value the handler later returns. `es_index`/`es_url` stand for
the configuration globals; the stores map what is sent to its outcome. -/
def ask_core (es_index es_url : String)
    (dslStore : List (String × PyVal) → StoreOutcome)
    (esqlStore : String → StoreOutcome)
    (mainJoined : String) (req : AskRequest) :
    Except PyErr (String × PyVal × PyVal × PyVal × PyVal) :=
  match ollama_generate_json mainJoined with
  | .error e => .error e
  | .ok llm =>
    match llm with
    | .dict kvs =>
      (match validate_mode kvs with
       | .error e => .error e
       | .ok mode =>
         let query := (pyGet kvs "query").getD PyVal.none
         if mode = "dsl" then
           match query with
           | .dict qd =>
             (match run_es_dsl dslStore qd req.size
                 (es_url ++ "/" ++ es_index ++ "/_search") with
              | .error e => .error e
              | .ok (hits, sample, effective) =>
                .ok (mode, .dict effective, hits, sample, .dict kvs))
           | _ => .error (.http 400 (.str "Expected DSL JSON object for \x27query\x27."))
         else
           match query with
           | .str qs =>
             let esql_raw := pyStripStr qs
             if esql_raw.isEmpty || bad_literals.contains (pyLower esql_raw)
                 || esql_raw.length < 12 then
               .error (.http 400 (.dict [("message", .str "Model produced invalid ESQL"),
                 ("llm_raw", .dict kvs)]))
             else if !has_pipeline_op esql_raw.data then
               .error (.http 400 (.dict [("message", .str "Model ESQL missing pipeline operators"),
                 ("query", query), ("llm_raw", .dict kvs)]))
             else
               let normalized := _normalize_esql es_index esql_raw
               (match run_es_esql (esqlStore normalized) normalized with
                | .error e => .error e
                | .ok (hits, sample) =>
                  .ok (mode, .str normalized, hits, sample, .dict kvs))
           | _ => .error (.http 400 (.str "Expected ESQL string for \x27query\x27.")))
    | _ => .error (.uncaught "AttributeError: get")

/-- Embeds the `/ask` handler `ask` (src/agent/app.py lines 448-524): the
pre-summary core followed by the summarization step and response
construction. The two generation-model calls are represented by the joined
stream texts they produce. -/
def ask (es_index es_url : String)
    (dslStore : List (String × PyVal) → StoreOutcome)
    (esqlStore : String → StoreOutcome)
    (mainJoined summaryJoined : String) (req : AskRequest) :
    Except PyErr AskResponse :=
  match ask_core es_index es_url dslStore esqlStore mainJoined req with
  | .error e => .error e
  | .ok (mode, query, hits, sample, llm_raw) =>
    finish mode query hits sample llm_raw summaryJoined

/-- Claim C2 (counterexample): a recovered mapping WITHOUT a mode field is
accepted — the handler silently defaults the mode to `esql` and completes
the request — whereas the claim requires an `InvalidMode` failure when the
mode field is absent. -/
theorem c2_counterexample :
    ask "springboot-logs-*" "http://localhost:9200"
      (fun _ => StoreOutcome.resp 200 (some (.dict [])) "")
      (fun _ => StoreOutcome.resp 200
        (some (.dict [("values", .list [.list []]), ("columns", .list [])])) "")
      "\x7b\"query\": \"WHERE x > 1 | LIMIT 10\"\x7d"
      "\x7b\"summary\": \"one row\"\x7d"
      { question := "q" }
      = .ok { mode := "esql",
              query := .str "FROM springboot-logs-* | WHERE x > 1 | LIMIT 10",
              hits := .int 1,
              sample := .dict [("values", .list [.list []]), ("columns", .list [])],
              answer := .str "one row",
              llm_raw := .dict [("query", .str "WHERE x > 1 | LIMIT 10")] } :=
  rfl

/-- Claim C2 (amended): the validator first defaults a missing or falsy
(e.g. empty-string) mode field to `esql`, then lowercases; it accepts
exactly the lowercased values `esql` and `dsl` and fails with the
invalid-mode 400 for any other present, truthy string value. A missing or
empty mode is therefore accepted as `esql`, not rejected. -/
theorem c2_amended (kvs : List (String × PyVal)) (s : String) :
    (pyGet kvs "mode" = Option.none → validate_mode kvs = .ok "esql")
    ∧ (pyGet kvs "mode" = some (.str "") → validate_mode kvs = .ok "esql")
    ∧ (pyGet kvs "mode" = some (.str s) → s ≠ "" →
        ((pyLower s = "esql" ∨ pyLower s = "dsl") →
          validate_mode kvs = .ok (pyLower s))
        ∧ (pyLower s ≠ "esql" → pyLower s ≠ "dsl" →
          validate_mode kvs
            = .error (.http 400 (.str ("Model returned invalid mode: " ++ pyLower s))))) := by
  refine ⟨fun h => ?_, fun h => ?_, fun h hne => ⟨fun hm => ?_, fun h1 h2 => ?_⟩⟩
  · simp only [validate_mode, h]
    rfl
  · simp only [validate_mode, h, pyTruthy]
    rfl
  · have hne' : s.isEmpty = false := by
      cases hb : s.isEmpty
      · rfl
      · exact absurd ((String.isEmpty_iff s).mp hb) hne
    simp [validate_mode, h, pyTruthy, hne', hm]
  · have hne' : s.isEmpty = false := by
      cases hb : s.isEmpty
      · rfl
      · exact absurd ((String.isEmpty_iff s).mp hb) hne
    simp [validate_mode, h, pyTruthy, hne', h1, h2]

/-- Claim C2 (witness): an absent mode is accepted as `esql`; the unknown
mode `banana` is rejected with the invalid-mode 400. -/
theorem c2_amended_witness :
    validate_mode [] = .ok "esql"
    ∧ validate_mode [("mode", PyVal.str "banana")]
      = .error (.http 400 (.str ("Model returned invalid mode: " ++ pyLower "banana"))) :=
  ⟨(c2_amended [] "x").1 rfl,
   ((c2_amended [("mode", PyVal.str "banana")] "banana").2.2 rfl (by decide)).2
     (by decide) (by decide)⟩

/-- Claim C8 (counterexample): a summarization failure that is NOT a raised
`HTTPException` does abort the request: when the summary model answers with
the valid-JSON blob `42`, the recovery returns the integer 42, and
`summary_obj.get("summary")` raises an `AttributeError` that the
`except HTTPException` clause does not catch — the whole `/ask` request
fails instead of degrading to the placeholder, contradicting the claim's
"fails for any reason - ... or of handling its result". -/
theorem c8_counterexample :
    ask "springboot-logs-*" "http://localhost:9200"
      (fun _ => StoreOutcome.resp 200 (some (.dict [])) "")
      (fun _ => StoreOutcome.resp 200
        (some (.dict [("values", .list [.list []]), ("columns", .list [])])) "")
      "\x7b\"mode\": \"esql\", \"query\": \"WHERE x > 1 | LIMIT 10\"\x7d"
      "42"
      { question := "q" }
      = .error (.uncaught "AttributeError: get") :=
  rfl

/-- Claim C8 (amended): when the summarization invocation fails with a
raised `HTTPException` (any status and detail — the only failures the
nested recovery raises), the request still succeeds: the fixed placeholder
is substituted as the answer while mode, query, hit count and sample are
exactly those computed before summarization; only a non-mapping summary
result escapes this net (see the counterexample). -/
theorem c8_amended (es_index es_url : String)
    (dslStore : List (String × PyVal) → StoreOutcome)
    (esqlStore : String → StoreOutcome)
    (mainJoined summaryJoined : String) (req : AskRequest)
    (st : Nat) (det : PyVal)
    (hsum : ollama_generate_json summaryJoined = .error (.http st det))
    (mode : String) (query hits sample llm_raw : PyVal)
    (hcore : ask_core es_index es_url dslStore esqlStore mainJoined req
      = .ok (mode, query, hits, sample, llm_raw)) :
    ask es_index es_url dslStore esqlStore mainJoined summaryJoined req
      = .ok { mode := mode, query := query, hits := hits,
              sample := truncate_sample sample,
              answer := .str "(summary unavailable; see raw results)",
              llm_raw := llm_raw } := by
  simp only [ask, hcore]
  simp only [finish, summarize_answer, hsum]

/-- Claim C8 (witness): with an empty summary-model answer (raising the
empty-response 500 `HTTPException`), the request succeeds with the
placeholder answer and the execution results unchanged. -/
theorem c8_amended_witness :
    ask "springboot-logs-*" "http://localhost:9200"
      (fun _ => StoreOutcome.resp 200 (some (.dict [])) "")
      (fun _ => StoreOutcome.resp 200
        (some (.dict [("values", .list [.list []]), ("columns", .list [])])) "")
      "\x7b\"mode\": \"esql\", \"query\": \"WHERE x > 1 | LIMIT 10\"\x7d"
      ""
      { question := "q" }
      = .ok { mode := "esql",
              query := .str "FROM springboot-logs-* | WHERE x > 1 | LIMIT 10",
              hits := .int 1,
              sample := .dict [("values", .list [.list []]), ("columns", .list [])],
              answer := .str "(summary unavailable; see raw results)",
              llm_raw := .dict [("mode", .str "esql"),
                ("query", .str "WHERE x > 1 | LIMIT 10")] } :=
  c8_amended "springboot-logs-*" "http://localhost:9200"
    (fun _ => StoreOutcome.resp 200 (some (.dict [])) "")
    (fun _ => StoreOutcome.resp 200
      (some (.dict [("values", .list [.list []]), ("columns", .list [])])) "")
    "\x7b\"mode\": \"esql\", \"query\": \"WHERE x > 1 | LIMIT 10\"\x7d" "" { question := "q" }
    500 (.str "Model returned an empty \x27response\x27.") rfl
    "esql" (.str "FROM springboot-logs-* | WHERE x > 1 | LIMIT 10") (.int 1)
    (.dict [("values", .list [.list []]), ("columns", .list [])])
    (.dict [("mode", .str "esql"), ("query", .str "WHERE x > 1 | LIMIT 10")]) rfl

/-- Claim C5 (code bug): the recovery strategies accept whatever JSON value
`json.loads` yields, with no mapping check: the blob `[1, 2]` — valid JSON
but not an object — is accepted by the direct-parse strategy and returned
as a list, contradicting the function's declared `Dict` return type and its
docstring ("return a JSON object"). The failure path itself is as claimed:
a blob with no JSON and no salvageable pipeline raises the 500 carrying the
diagnostic detail. -/
theorem c5_nonobject_accepted :
    ollama_generate_json "[1, 2]" = .ok (.list [.int 1, .int 2])
    ∧ ollama_generate_json "no structured output here"
      = .error (.http 500 (.str unrecoverable_detail)) :=
  ⟨rfl, rfl⟩

/-- Claim C6 (counterexample): the salvage regex has no IGNORECASE flag and
matches only the exact words `FROM` or `from`; the mixed-case blob
`From logs-x | limit 5` is NOT salvaged — recovery fails with the 500 —
whereas the claim requires the salvage to fire for the keyword in any
letter case, `From` included. -/
theorem c6_counterexample :
    ollama_generate_json "From logs-x | limit 5"
      = .error (.http 500 (.str unrecoverable_detail)) :=
  rfl

/-- Claim C6 (amended): when no JSON object is recoverable, the ESQL salvage
fires exactly when the text contains the all-uppercase word `FROM` or the
all-lowercase word `from` (the regex has no IGNORECASE flag, so mixed case
like `From` does not trigger it), at a word boundary and followed by
whitespace and a non-space token; it then synthesizes a mapping with mode
`esql`, query equal to the stripped first quoted substring following a
colon if one exists or else the whole stripped blob, and the fixed
heuristic-recovery explanation; without such a match recovery fails with
the 500 `UnrecoverableOutput`. -/
theorem c6_amended (s : String)
    (hne : (pyStripStr s).isEmpty = false)
    (h1 : json_loads (pyStripStr s) = Option.none)
    (h2 : (fencedSearch (pyStripStr s).data).bind
        (fun g => json_loads (String.mk (pyStrip g))) = Option.none)
    (h3 : (_extract_first_json_object (pyStripStr s).data).bind
        (fun b => if b = [] then Option.none else json_loads (String.mk b))
      = Option.none) :
    (looks_like_esql (pyStripStr s).data = true →
      ollama_generate_json s = .ok (.dict [("mode", .str "esql"),
        ("query", .str (String.mk (pyStrip
          ((colon_quoted (pyStripStr s).data).getD (pyStripStr s).data)))),
        ("explanation", .str "Heuristically recovered ESQL from a non-JSON response")]))
    ∧ (looks_like_esql (pyStripStr s).data = false →
      ollama_generate_json s = .error (.http 500 (.str unrecoverable_detail))) := by
  constructor <;> intro h4 <;>
    simp [ollama_generate_json, hne, h1, h2, h3, h4]

/-- Claim C6 (witness): a lowercase `from` blob without quotes is salvaged
with the whole stripped blob as the query; a blob carrying a quoted
pipeline after a colon is salvaged with exactly the quoted substring. -/
theorem c6_amended_witness :
    ollama_generate_json "use from logs-x please"
      = .ok (.dict [("mode", .str "esql"),
          ("query", .str (String.mk (pyStrip
            ((colon_quoted (pyStripStr "use from logs-x please").data).getD
              (pyStripStr "use from logs-x please").data)))),
          ("explanation", .str "Heuristically recovered ESQL from a non-JSON response")])
    ∧ ollama_generate_json "the query: \"from logs-x | where a\" should work"
      = .ok (.dict [("mode", .str "esql"),
          ("query", .str (String.mk (pyStrip
            ((colon_quoted (pyStripStr "the query: \"from logs-x | where a\" should work").data).getD
              (pyStripStr "the query: \"from logs-x | where a\" should work").data)))),
          ("explanation", .str "Heuristically recovered ESQL from a non-JSON response")]) :=
  ⟨(c6_amended "use from logs-x please" rfl rfl rfl rfl).1 rfl,
   (c6_amended "the query: \"from logs-x | where a\" should work" rfl rfl rfl rfl).1 rfl⟩

/-- Claim C1 (witness for the amended theorem): one pipeline already carrying
a FROM stage is left as-is and re-normalisation is a no-op; one bare STATS
pipeline gets exactly one `FROM myindex-* | ` stage prepended. -/
theorem c1_amended_witness :
    (_normalize_esql "myindex-*" "FROM myindex-* | STATS c" = pyStripStr "FROM myindex-* | STATS c"
      ∧ _normalize_esql "myindex-*" (_normalize_esql "myindex-*" "FROM myindex-* | STATS c")
          = _normalize_esql "myindex-*" "FROM myindex-* | STATS c")
    ∧ _normalize_esql "myindex-*" "STATS c = COUNT(*) BY level"
        = "FROM " ++ "myindex-*" ++ " | " ++ pyStripStr "STATS c = COUNT(*) BY level" :=
  ⟨(c1_amended "myindex-*" "FROM myindex-* | STATS c").1 (by decide),
   (c1_amended "myindex-*" "STATS c = COUNT(*) BY level").2 (by decide)⟩

/-- Modelled from the spec: the failure kinds of ESQL execution relevant to
the Fallback Strategy (spec sections 4.4, 4.5, 7) — the store rejecting the
query, a transport failure, and the unsupported-endpoint case. The Fallback
Strategy itself is code of this repository that is not under src/:
src/agent/app.py is the stricter revision, which executes exactly the
normalized pipeline with no fallback (lines 483-491). -/
inductive EsqlFailure where
  | storeQuery (detail : PyVal)
  | storeTransport (detail : PyVal)
  | unsupportedEndpoint (msg : String)

/-- Modelled from the spec: the fallback is invoked only when ESQL execution
yields a store query error or a store transport error (spec section 4.5). -/
def triggers_fallback : EsqlFailure → Bool
  | .storeQuery _ => true
  | .storeTransport _ => true
  | .unsupportedEndpoint _ => false

/-- Modelled from the spec: the one fixed, deterministic fallback pipeline —
filter to the current day, count grouped by log level, sorted descending,
limited to 5 rows — scoped to the configured index (spec section 4.5). -/
def fallback_pipeline (es_index : String) : String :=
  "FROM " ++ es_index ++
    " | WHERE @timestamp >= NOW() - 1 day | STATS count = COUNT(*) BY level | SORT count DESC | LIMIT 5"

/-- Modelled from the spec: the annotation added to the returned
generated-query object when the fallback was substituted (spec section
4.5): the fallback_used marker plus the original and fallback pipeline
texts. -/
structure FallbackInfo where
  fallback_used : Bool
  original : String
  fallback : String

/-- Modelled from the spec: the lenient revision's ESQL execution wrapped in
the Fallback Strategy (spec section 4.5): execute the generated pipeline;
on a fallback-eligible failure construct and execute the fixed fallback
pipeline exactly once; on its success return its results with the
annotation; on its failure re-raise the ORIGINAL failure. `exec` maps a
pipeline text to its execution outcome. -/
def run_esql_with_fallback (exec : String → Except EsqlFailure (PyVal × PyVal))
    (es_index original : String) :
    Except EsqlFailure ((PyVal × PyVal) × Option FallbackInfo) :=
  match exec original with
  | .ok r => .ok (r, Option.none)
  | .error e =>
    if triggers_fallback e then
      match exec (fallback_pipeline es_index) with
      | .ok r => .ok (r, some ⟨true, original, fallback_pipeline es_index⟩)
      | .error _ => .error e
    else .error e

/-- Claim C7 (confirmed against the spec-modelled Fallback Strategy, which
is absent from src/): when ESQL execution of the generated pipeline fails
with a store query or transport error, exactly one fixed deterministic
fallback pipeline is executed; if it succeeds, the caller receives its
results with fallback_used = true and both the original and the fallback
pipeline texts; if it also fails, the surfaced error is the original
failure's, not the fallback's. -/
theorem c7_fallback (exec : String → Except EsqlFailure (PyVal × PyVal))
    (es_index original : String) (e : EsqlFailure)
    (horig : exec original = .error e) (htrig : triggers_fallback e = true) :
    (∀ r, exec (fallback_pipeline es_index) = .ok r →
      run_esql_with_fallback exec es_index original
        = .ok (r, some ⟨true, original, fallback_pipeline es_index⟩))
    ∧ (∀ e2, exec (fallback_pipeline es_index) = .error e2 →
      run_esql_with_fallback exec es_index original = .error e) := by
  constructor
  · intro r hr
    simp [run_esql_with_fallback, horig, htrig, hr]
  · intro e2 he2
    simp [run_esql_with_fallback, horig, htrig, he2]

/-- Claim C7 (witness): one store that fails the generated pipeline but
answers the fallback — results returned with the annotation — and one that
fails both — the original error surfaced, not the fallback's. -/
theorem c7_fallback_witness :
    run_esql_with_fallback
      (fun p => if p = "FROM logs-* | BAD" then
          .error (.storeQuery (.str "parse error"))
        else .ok ((.int 0, .dict [])))
      "logs-*" "FROM logs-* | BAD"
      = .ok (((.int 0, .dict [])), some ⟨true, "FROM logs-* | BAD", fallback_pipeline "logs-*"⟩)
    ∧ run_esql_with_fallback
      (fun p => if p = "FROM logs-* | BAD" then
          .error (.storeQuery (.str "original-error"))
        else .error (.storeQuery (.str "fallback-error")))
      "logs-*" "FROM logs-* | BAD"
      = .error (.storeQuery (.str "original-error")) :=
  ⟨(c7_fallback
      (fun p => if p = "FROM logs-* | BAD" then
          .error (.storeQuery (.str "parse error"))
        else .ok ((.int 0, .dict [])))
      "logs-*" "FROM logs-* | BAD" (.storeQuery (.str "parse error")) rfl rfl).1
        ((.int 0, .dict [])) rfl,
   (c7_fallback
      (fun p => if p = "FROM logs-* | BAD" then
          .error (.storeQuery (.str "original-error"))
        else .error (.storeQuery (.str "fallback-error")))
      "logs-*" "FROM logs-* | BAD" (.storeQuery (.str "original-error")) rfl rfl).2
        (.storeQuery (.str "fallback-error")) rfl⟩
